import Mathlib

/-
Verification of the error taxonomy of the rust-imap client (src/src/error.rs).

The module defines two tagged unions, `Error` (top level) and `ParseError`
(nested), together with:
  - `From` conversions lifting `io::Error`, `HandshakeError<TcpStream>` and
    `FromUtf8Error` into `Error`;
  - `description` (the `std::error::Error::description` impl on both unions);
  - `cause` (the `std::error::Error::cause` impl on both unions);
  - `Display` renderings (`fmt`) on both unions.

Foreign failure types (`io::Error`, `HandshakeError`, `FromUtf8Error`) are
opaque to this module.  The module only ever reads their `description()` text
and their `Display` rendering, so they are embedded as records carrying those
two strings (plus opaque payload data for `FromUtf8Error`); the module never
inspects anything else about them.
-/

namespace Imap

/-- Model of `std::io::Error` as consumed by this module: an opaque failure
whose `description()` text and `Display` text are arbitrary strings chosen by
the transport layer. -/
structure IoError where
  description : String
  display : String
deriving DecidableEq, Repr

/-- Model of `openssl::ssl::HandshakeError<TcpStream>` as consumed by this
module: an opaque handshake failure with its own `description()` and
`Display` texts. -/
structure SslError where
  description : String
  display : String
deriving DecidableEq, Repr

/-- Model of `std::string::FromUtf8Error`: the bytes that failed to decode
and the length of the valid prefix.  The module treats it as opaque data. -/
structure FromUtf8Error where
  bytes : List Nat
  validUpTo : Nat
deriving DecidableEq, Repr

/-- `enum ParseError` from src/src/error.rs. -/
inductive ParseError where
  | FromUtf8 (e : FromUtf8Error)
  | StatusResponse (lines : List String)
  | Capability (lines : List String)
  | Authentication (msg : String)
deriving DecidableEq, Repr

/-- `enum Error` from src/src/error.rs. -/
inductive Error where
  | Io (e : IoError)
  | Ssl (e : SslError)
  | BadResponse (lines : List String)
  | NoResponse (lines : List String)
  | Parse (e : ParseError)
deriving DecidableEq, Repr

/-- `impl From<IoError> for Error` (src/src/error.rs lines 27-31). -/
def Error.fromIo (err : IoError) : Error := Error.Io err

/-- `impl From<SslError<TcpStream>> for Error` (src/src/error.rs lines 33-37). -/
def Error.fromSsl (err : SslError) : Error := Error.Ssl err

/-- `impl From<FromUtf8Error> for Error` (src/src/error.rs lines 39-43). -/
def Error.fromUtf8Err (err : FromUtf8Error) : Error :=
  Error.Parse (ParseError.FromUtf8 err)

/-- `ParseError::description` (src/src/error.rs lines 96-103). -/
def ParseError.description : ParseError → String
  | ParseError.FromUtf8 _ => "Unable to decode the response as UTF-8."
  | ParseError.StatusResponse _ => "Unable to parse status response"
  | ParseError.Capability _ => "Unable to parse capability response"
  | ParseError.Authentication _ => "Unable to parse authentication response"

/-- `Error::description` (src/src/error.rs lines 56-64). -/
def Error.description : Error → String
  | Error.Io e => e.description
  | Error.Ssl e => e.description
  | Error.Parse e => e.description
  | Error.BadResponse _ => "Bad Response"
  | Error.NoResponse _ => "No Response"

/-- The return type of `cause()`: a reference to one of the wrapped foreign
failures this module can expose as a chained cause. -/
inductive CauseRef where
  | io (e : IoError)
  | ssl (e : SslError)
deriving DecidableEq, Repr

/-- `Error::cause` (src/src/error.rs lines 66-72). -/
def Error.cause : Error → Option CauseRef
  | Error.Io e => some (CauseRef.io e)
  | Error.Ssl e => some (CauseRef.ssl e)
  | _ => none

/-- `ParseError::cause` (src/src/error.rs lines 105-109): the match arm is
a catch-all returning `None`. -/
def ParseError.cause : ParseError → Option CauseRef
  | _ => none

/-- `impl fmt::Display for ParseError` (src/src/error.rs lines 87-93): the
single catch-all arm writes `self.description()`. -/
def ParseError.display (e : ParseError) : String := e.description

/-- `impl fmt::Display for Error` (src/src/error.rs lines 45-53): `Io` and
`Ssl` delegate to the wrapped failure's own `Display`; the catch-all arm
writes `self.description()`. -/
def Error.display : Error → String
  | Error.Io e => e.display
  | Error.Ssl e => e.display
  | e => e.description

/-- Observer projecting the raw response-line payload of a server-rejection
value (`BadResponse`/`NoResponse` both carry a `Vec<String>`). -/
def Error.serverLines : Error → Option (List String)
  | Error.BadResponse lines => some lines
  | Error.NoResponse lines => some lines
  | _ => none

/-- `true` exactly on the two variants whose rendering delegates to a wrapped
foreign failure (`Io` / `Ssl`). -/
def Error.isDelegating : Error → Bool
  | Error.Io _ => true
  | Error.Ssl _ => true
  | _ => false

/-- A string is single-line when it contains no newline character. -/
def singleLine (s : String) : Bool := !(s.toList.contains '\n')

/-- Claim C1: lifting a transport I/O failure via the `From` conversion yields
the `Io` (Transport) variant and `cause` on the result returns exactly the
wrapped failure; likewise lifting a TLS handshake failure yields `Ssl`
(SecureChannel) and `cause` returns it — wrapping is lossless. -/
theorem claim_C1 (eio : IoError) (essl : SslError) :
    Error.fromIo eio = Error.Io eio ∧
    (Error.fromIo eio).cause = some (CauseRef.io eio) ∧
    Error.fromSsl essl = Error.Ssl essl ∧
    (Error.fromSsl essl).cause = some (CauseRef.ssl essl) :=
  ⟨rfl, rfl, rfl, rfl⟩

/-- Claim C2: for every line sequence `L`, including the empty one, the Bad
server-rejection value carries exactly `L` and describes as "Bad Response",
and the No server-rejection value carries exactly `L` and describes as
"No Response". -/
theorem claim_C2 (L : List String) :
    (Error.BadResponse L).serverLines = some L ∧
    (Error.BadResponse L).description = "Bad Response" ∧
    (Error.NoResponse L).serverLines = some L ∧
    (Error.NoResponse L).description = "No Response" :=
  ⟨rfl, rfl, rfl, rfl⟩

/-- Claim C3: lifting a byte-decoding failure `D` into the top-level error
type via the `From` conversion yields `Parse (FromUtf8 D)` (that is,
Malformed(Encoding(D))), and describing the result gives the fixed UTF-8
message. -/
theorem claim_C3 (D : FromUtf8Error) :
    Error.fromUtf8Err D = Error.Parse (ParseError.FromUtf8 D) ∧
    (Error.fromUtf8Err D).description = "Unable to decode the response as UTF-8." :=
  ⟨rfl, rfl⟩

/-- Claim C4: for every top-level error value, `cause` returns a present
reference exactly when the value is the `Io` (Transport) or `Ssl`
(SecureChannel) variant, and returns none on `BadResponse`, `NoResponse`
and `Parse`. -/
theorem claim_C4 (e : Error) :
    e.cause.isSome = true ↔ ((∃ x, e = Error.Io x) ∨ (∃ x, e = Error.Ssl x)) := by
  cases e <;> simp [Error.cause]

/-- Helper: every parse-error variant describes to non-empty text. -/
theorem ParseError.parse_description_ne_empty (p : ParseError) : p.description ≠ "" := by
  cases p with
  | FromUtf8 u =>
      exact (by decide : ("Unable to decode the response as UTF-8." : String) ≠ "")
  | StatusResponse l =>
      exact (by decide : ("Unable to parse status response" : String) ≠ "")
  | Capability l =>
      exact (by decide : ("Unable to parse capability response" : String) ≠ "")
  | Authentication m =>
      exact (by decide : ("Unable to parse authentication response" : String) ≠ "")

/-- Helper: every non-delegating top-level variant describes to non-empty
text. -/
theorem Error.error_description_ne_empty (e : Error) (h : e.isDelegating = false) :
    e.description ≠ "" := by
  cases e with
  | Io x => simp [Error.isDelegating] at h
  | Ssl x => simp [Error.isDelegating] at h
  | BadResponse l => exact (by decide : ("Bad Response" : String) ≠ "")
  | NoResponse l => exact (by decide : ("No Response" : String) ≠ "")
  | Parse q => exact ParseError.parse_description_ne_empty q

/-- Helper: every non-delegating top-level variant describes to a
single-line string. -/
theorem Error.description_singleLine (e : Error) (h : e.isDelegating = false) :
    singleLine e.description = true := by
  cases e with
  | Io x => simp [Error.isDelegating] at h
  | Ssl x => simp [Error.isDelegating] at h
  | BadResponse l => exact (by decide : singleLine "Bad Response" = true)
  | NoResponse l => exact (by decide : singleLine "No Response" = true)
  | Parse q =>
      cases q with
      | FromUtf8 u =>
          exact (by decide : singleLine "Unable to decode the response as UTF-8." = true)
      | StatusResponse l =>
          exact (by decide : singleLine "Unable to parse status response" = true)
      | Capability l =>
          exact (by decide : singleLine "Unable to parse capability response" = true)
      | Authentication m =>
          exact (by decide : singleLine "Unable to parse authentication response" = true)

/-- Claim C5 counterexample: the claim that `description` returns non-empty
text on every variant fails: the `Io` variant delegates to the wrapped
transport failure's own text, which may be the empty string. -/
theorem claim_C5_counterexample : ¬ (∀ e : Error, e.description ≠ "") := by
  intro h
  exact h (Error.Io ⟨"", ""⟩) rfl

/-- Claim C5 (amended): `description` terminates normally on every variant of
both unions — no variant unhandled; on every non-delegating variant
(server rejections and all four parse-error variants) it returns non-empty
text, while on `Io`/`Ssl` it returns the wrapped failure's own description
text, which is non-empty exactly when that text is. -/
theorem claim_C5_amended (e : Error) (p : ParseError) (h : e.isDelegating = false)
    (eio : IoError) (essl : SslError) :
    e.description ≠ "" ∧ p.description ≠ "" ∧
    (Error.Io eio).description = eio.description ∧
    (Error.Ssl essl).description = essl.description :=
  ⟨Error.error_description_ne_empty e h, ParseError.parse_description_ne_empty p, rfl, rfl⟩

/-- Claim C5 witness: the amended theorem at concrete inputs. -/
theorem claim_C5_amended_witness :
    (Error.BadResponse []).description ≠ "" ∧
    (ParseError.Authentication "+").description ≠ "" ∧
    (Error.Io ⟨"a", "b"⟩).description = "a" ∧
    (Error.Ssl ⟨"c", "d"⟩).description = "c" :=
  claim_C5_amended (Error.BadResponse []) (ParseError.Authentication "+")
    (by decide) ⟨"a", "b"⟩ ⟨"c", "d"⟩

/-- Claim C6: the non-wrapping `Parse` sub-variants describe to exactly the
fixed constants, for every carried payload; in particular the
authentication payload "+" gives the authentication constant. -/
theorem claim_C6 (l l2 : List String) (m : String) :
    (Error.Parse (ParseError.StatusResponse l)).description =
      "Unable to parse status response" ∧
    (Error.Parse (ParseError.Capability l2)).description =
      "Unable to parse capability response" ∧
    (Error.Parse (ParseError.Authentication m)).description =
      "Unable to parse authentication response" ∧
    (Error.Parse (ParseError.Authentication "+")).description =
      "Unable to parse authentication response" :=
  ⟨rfl, rfl, rfl, rfl⟩

/-- Claim C7: the rendering duality — the `Io` and `Ssl` variants delegate
their displayed text verbatim to the wrapped failure's own message, while
every other variant (each sub-variant counted separately) renders a fixed
constant text independent of its payload. -/
theorem claim_C7 (eio : IoError) (essl : SslError) (l l2 l3 l4 : List String)
    (u : FromUtf8Error) (m : String) :
    (Error.Io eio).display = eio.display ∧
    (Error.Ssl essl).display = essl.display ∧
    (Error.BadResponse l).display = "Bad Response" ∧
    (Error.NoResponse l2).display = "No Response" ∧
    (Error.Parse (ParseError.FromUtf8 u)).display =
      "Unable to decode the response as UTF-8." ∧
    (Error.Parse (ParseError.StatusResponse l3)).display =
      "Unable to parse status response" ∧
    (Error.Parse (ParseError.Capability l4)).display =
      "Unable to parse capability response" ∧
    (Error.Parse (ParseError.Authentication m)).display =
      "Unable to parse authentication response" :=
  ⟨rfl, rfl, rfl, rfl, rfl, rfl, rfl, rfl⟩

/-- Claim C8 counterexample: the description of a top-level error is not a
constant determined by the variant alone: two `Io` values with different
wrapped failures describe differently. -/
theorem claim_C8_counterexample :
    (Error.Io ⟨"x", ""⟩).description ≠ (Error.Io ⟨"y", ""⟩).description := by
  decide

/-- Claim C8 (amended): for every non-delegating variant of the top-level
error type, `description` returns a fixed, non-empty, single-line string
determined by the variant alone (independent of the carried payload) and
never fails; the `Io` and `Ssl` variants instead delegate to the wrapped
failure's own description text. -/
theorem claim_C8_amended (e : Error) (h : e.isDelegating = false)
    (l l2 l3 l4 : List String) (u : FromUtf8Error) (m : String)
    (eio : IoError) (essl : SslError) :
    e.description ≠ "" ∧ singleLine e.description = true ∧
    (Error.BadResponse l).description = "Bad Response" ∧
    (Error.NoResponse l2).description = "No Response" ∧
    (Error.Parse (ParseError.FromUtf8 u)).description =
      "Unable to decode the response as UTF-8." ∧
    (Error.Parse (ParseError.StatusResponse l3)).description =
      "Unable to parse status response" ∧
    (Error.Parse (ParseError.Capability l4)).description =
      "Unable to parse capability response" ∧
    (Error.Parse (ParseError.Authentication m)).description =
      "Unable to parse authentication response" ∧
    (Error.Io eio).description = eio.description ∧
    (Error.Ssl essl).description = essl.description :=
  ⟨Error.error_description_ne_empty e h, Error.description_singleLine e h,
    rfl, rfl, rfl, rfl, rfl, rfl, rfl, rfl⟩

/-- Claim C8 witness: the amended theorem at concrete inputs. -/
theorem claim_C8_amended_witness :
    (Error.NoResponse []).description ≠ "" ∧
    singleLine (Error.NoResponse []).description = true ∧
    (Error.BadResponse ["a"]).description = "Bad Response" ∧
    (Error.NoResponse []).description = "No Response" ∧
    (Error.Parse (ParseError.FromUtf8 ⟨[255], 0⟩)).description =
      "Unable to decode the response as UTF-8." ∧
    (Error.Parse (ParseError.StatusResponse [])).description =
      "Unable to parse status response" ∧
    (Error.Parse (ParseError.Capability [])).description =
      "Unable to parse capability response" ∧
    (Error.Parse (ParseError.Authentication "+")).description =
      "Unable to parse authentication response" ∧
    (Error.Io ⟨"eio", "dio"⟩).description = "eio" ∧
    (Error.Ssl ⟨"essl", "dssl"⟩).description = "essl" :=
  claim_C8_amended (Error.NoResponse []) (by decide) ["a"] [] [] []
    ⟨[255], 0⟩ "+" ⟨"eio", "dio"⟩ ⟨"essl", "dssl"⟩

/-- Claim C9: the nested parse-error type has its own `cause` accessor and it
returns none on every variant — in particular the wrapped `FromUtf8Error`
is never exposed through the cause chain. -/
theorem claim_C9 (p : ParseError) (u : FromUtf8Error) :
    p.cause = none ∧ (ParseError.FromUtf8 u).cause = none :=
  ⟨rfl, rfl⟩

/-- Claim C10: for every parse-error value, and for every top-level error
value other than the delegating `Io` and `Ssl` variants, the `Display`
rendering produces exactly the string of the description accessor. -/
theorem claim_C10 (p : ParseError) (e : Error) (h : e.isDelegating = false) :
    p.display = p.description ∧ e.display = e.description := by
  refine ⟨rfl, ?_⟩
  cases e with
  | Io x => simp [Error.isDelegating] at h
  | Ssl x => simp [Error.isDelegating] at h
  | BadResponse l => rfl
  | NoResponse l => rfl
  | Parse q => rfl

/-- Claim C10 witness: the theorem at concrete inputs. -/
theorem claim_C10_witness :
    (ParseError.Authentication "+").display =
      (ParseError.Authentication "+").description ∧
    (Error.BadResponse ["BAD invalid command"]).display =
      (Error.BadResponse ["BAD invalid command"]).description :=
  claim_C10 (ParseError.Authentication "+")
    (Error.BadResponse ["BAD invalid command"]) (by decide)

end Imap
